import Mathlib

/-!
Verification of the SustainaReview repository against its specification.

The definitions below are a shallow embedding of the relevant source code:

* the global client store (src/vitereact/src/store/main.tsx);
* the review-submission form logic
  (src/vitereact/src/components/views/UV_ReviewSubmission.tsx);
* the search-results URL synchronization effects (UV_SearchResults, in the
  same file);
* models of the backend endpoints, whose implementation is not part of the
  repository sources; those are modelled from the specification and the
  OpenAPI document (src/backend/openapi.yaml) and are marked as such.

JavaScript numbers are embedded as Rat where a concrete numeric type is
needed, as Int for integral quantities, and as an abstract type where only
the JavaScript string round-trip guarantee matters.  JavaScript strings are
embedded as String and string nullability as Option String.
-/

namespace SR

/-! ## Client store data model (src/vitereact/src/store/main.tsx) -/

/-- Auth slice of the zustand store (interface AuthState). -/
structure AuthState where
  is_authenticated : Bool
  user_id : Option String
  username : Option String
  email : Option String
  access_token : Option String
  token_expiration : Option Int
  loading : Bool
  error : Option String
deriving DecidableEq

/-- Product summary card (interface ProductCard). -/
structure ProductCard where
  product_id : String
  name : String
  brand_name : String
  primary_image_url : String
  overall_score : Option Rat
  sustainability_score : Option Rat
  ethical_score : Option Rat
  durability_score : Option Rat
deriving DecidableEq

/-- Pagination metadata (interface PaginationInfo). -/
structure PaginationInfo where
  currentPage : Int
  pageSize : Int
  totalPages : Int
  totalProducts : Int
deriving DecidableEq

/-- Products slice of the store (interface ProductsState). -/
structure ProductsState where
  items : List ProductCard
  pagination : PaginationInfo
  loading : Bool
  error : Option String
deriving DecidableEq

/-- Filter and sorting slice of the store (interface FiltersState). -/
structure FiltersState where
  search_term : Option String
  category_id : Option String
  brand_name : Option String
  min_sustainability_score : Option Rat
  min_ethical_score : Option Rat
  min_durability_score : Option Rat
  attribute_ids : List String
  sort_by : Option String
  sort_order : Option String
deriving DecidableEq

/-- Category entity (interface Category). -/
structure Category where
  category_id : String
  name : String
  description : Option String
deriving DecidableEq

/-- Categories slice of the store (interface CategoriesState). -/
structure CategoriesState where
  items : List Category
  loading : Bool
  error : Option String
deriving DecidableEq

/-- Attribute type enum (sustainability, ethical or durability). -/
inductive AttributeType where
  | sustainability
  | ethical
  | durability
deriving DecidableEq

/-- Attribute entity (interface Attribute). -/
structure Attribute where
  attribute_id : String
  name : String
  attribute_type : AttributeType
deriving DecidableEq

/-- Attributes slice of the store (interface AttributesState). -/
structure AttributesState where
  items : List Attribute
  loading : Bool
  error : Option String
deriving DecidableEq

/-- Notification type enum. -/
inductive NotificationType where
  | info
  | success
  | warning
  | error
deriving DecidableEq

/-- Notification slice of the store (interface NotificationState). -/
structure NotificationState where
  message : Option String
  type : NotificationType
  visible : Bool
deriving DecidableEq

/-- The whole global store state (interface AppState, data fields only). -/
structure AppState where
  auth : AuthState
  products : ProductsState
  filters : FiltersState
  categories : CategoriesState
  attributes : AttributesState
  notifications : NotificationState
deriving DecidableEq

/-- The set_search_term action (store/main.tsx, lines 267-270): sets the
search term and resets the category, brand, attribute and minimum-score
filters, spreading the rest of the filter slice (so sort_by and sort_order
are kept) and leaving every other slice untouched. -/
def set_search_term (term : Option String) (state : AppState) : AppState :=
  { state with
    filters :=
      { state.filters with
        search_term := term
        category_id := none
        brand_name := none
        attribute_ids := []
        min_sustainability_score := none
        min_ethical_score := none
        min_durability_score := none } }

/-- The list update performed by toggle_attribute_filter: remove the id if
present, append it otherwise (store/main.tsx, lines 285-288). -/
def toggleAttributeList (attribute_id : String) (current_attributes : List String) :
    List String :=
  if current_attributes.contains attribute_id then
    current_attributes.filter (fun id => id != attribute_id)
  else
    current_attributes ++ [attribute_id]

/-- The toggle_attribute_filter action (store/main.tsx, lines 283-292):
updates filters.attribute_ids with `toggleAttributeList`, spreading the rest
of the filter slice and leaving every other slice untouched. -/
def toggle_attribute_filter (attribute_id : String) (state : AppState) : AppState :=
  { state with
    filters :=
      { state.filters with
        attribute_ids := toggleAttributeList attribute_id state.filters.attribute_ids } }

/-! ## Review submission form (UV_ReviewSubmission.tsx) -/

/-- The MIME types accepted by handleFileSelect (line 393). -/
def allowedTypes : List String := ["image/jpeg", "image/png", "image/gif"]

/-- The maximum accepted file size in bytes, 5MB (line 394). -/
def maxSize : Nat := 5 * 1024 * 1024

/-- A selected browser file: its name, MIME type string and size in bytes. -/
structure JSFile where
  name : String
  type : String
  size : Nat
deriving DecidableEq

/-- The per-file check of handleFileSelect (lines 397-405): a file is flagged
invalid when its MIME type is not allowed, or else when its size exceeds the
5MB limit. -/
def fileInvalid (file : JSFile) : Bool :=
  if !(allowedTypes.contains file.type) then true
  else if file.size > maxSize then true
  else false

/-- The handleFileSelect handler (lines 383-416), returning the list of files
for which photoUploadMutation.mutate is called: nothing on an empty
selection, nothing when any selected file is flagged invalid, and every
selected file otherwise. -/
def handleFileSelect (files : List JSFile) : List JSFile :=
  if files.length = 0 then []
  else if files.any fileInvalid then []
  else files

/-- String.prototype.trim: the string with leading and trailing whitespace
removed. -/
def trimJS (s : String) : String :=
  ⟨((s.data.dropWhile Char.isWhitespace).reverse.dropWhile Char.isWhitespace).reverse⟩

/-- The local state of the review submission form that handleSubmit reads
(UV_ReviewSubmission.tsx, lines 198-210).  Ratings are held as
Option Int: null or an integer star value. -/
structure ReviewFormState where
  review_title : String
  review_body : String
  overall_rating : Option Int
  sustainability_rating : Option Int
  ethical_rating : Option Int
  durability_rating : Option Int
  confirmation_checkbox : Bool
  uploaded_photos : List String
deriving DecidableEq

/-- The payload handed to reviewSubmissionMutation (interface
ReviewSubmissionPayload; photos kept as their preview URLs). -/
structure ReviewSubmissionPayload where
  title : String
  body : String
  overall_rating : Int
  sustainability_rating : Option Int
  ethical_rating : Option Int
  durability_rating : Option Int
  photos : List String
  confirmation_checkbox : Bool
deriving DecidableEq

/-- The client-side validation block of handleSubmit (lines 428-441), as the
list of (field, message) entries added to the errors object. -/
def validateReviewForm (s : ReviewFormState) : List (String × String) :=
  (if trimJS s.review_title = "" then
    [("title", "Review title is required.")] else []) ++
  (if trimJS s.review_body = "" then
    [("body", "Review body cannot be empty.")] else []) ++
  (match s.overall_rating with
   | none => [("overall_rating", "Please provide an overall rating.")]
   | some r =>
     if r < 1 ∨ r > 5 then
       [("overall_rating", "Please provide an overall rating.")] else []) ++
  (if !s.confirmation_checkbox then
    [("confirmation_checkbox", "You must confirm you have personally used this product.")]
   else [])

/-- The handleSubmit handler (lines 425-466): when the validation block
produced any error, it records the errors and returns without mutating
(result none, no request); otherwise it builds the payload (title and body
trimmed, overall rating non-null asserted, sub-ratings and photos passed
through as they are) and calls reviewSubmissionMutation.mutate with it. -/
def handleSubmit (s : ReviewFormState) : Option ReviewSubmissionPayload :=
  let errors := validateReviewForm s
  if errors.length > 0 then none
  else
    some
      { title := trimJS s.review_title
        body := trimJS s.review_body
        overall_rating := s.overall_rating.getD 0
        sustainability_rating := s.sustainability_rating
        ethical_rating := s.ethical_rating
        durability_rating := s.durability_rating
        photos := s.uploaded_photos
        confirmation_checkbox := s.confirmation_checkbox }

/-- The guard inside submitNewReview (lines 126-130): before any network
call it rejects a payload whose confirmation checkbox is not set. -/
def submitNewReviewGuard (reviewData : ReviewSubmissionPayload) : Except String Unit :=
  if !reviewData.confirmation_checkbox then
    Except.error "You must confirm you have personally used this product."
  else
    Except.ok ()

/-- The condition the claim states for an optional sub-rating: in [1,5] or
absent. -/
def subRatingOk (r : Option Int) : Prop :=
  ∀ v, r = some v → 1 ≤ v ∧ v ≤ 5

instance (r : Option Int) : Decidable (subRatingOk r) := by
  unfold subRatingOk
  cases r with
  | none => exact isTrue (by intro v h; cases h)
  | some v =>
    exact decidable_of_iff (1 ≤ v ∧ v ≤ 5)
      (by constructor
          · intro h w hw
            cases hw
            exact h
          · intro h
            exact h v rfl)

/-! ## Search results URL synchronization (UV_SearchResults, same file)

The two effects at lines 922-953 (state to URL) and 956-1016 (URL to state)
are embedded over an association-list model of URLSearchParams.  The
JavaScript number type is abstracted as a type Num together with its
string conversion and its parseFloat; the theorems take as hypotheses the
JavaScript guarantees parseFloat(String(x)) === x and String(x) !== ""
at the values occurring in the state. -/

/-- URLSearchParams, as an association list of key/value pairs. -/
abbrev URLParams := List (String × String)

/-- URLSearchParams.get: the first value stored under the key, or null. -/
def getParam (params : URLParams) (key : String) : Option String :=
  (params.find? (fun p => p.1 == key)).map (fun p => p.2)

/-- The entry contributed by one updateParam call (lines 931-937) on a key
not yet present: a singleton for a non-null non-empty value (set), nothing
otherwise (delete of an absent key). -/
def optEntry (key : String) (value : Option String) : URLParams :=
  match value with
  | some v => if v = "" then [] else [(key, v)]
  | none => []

/-- One updateParam call of the URL-writing effect, applied to params that
do not contain the key yet (the effect starts from the current search
string, here the empty one, and touches each key once): set appends, delete
is a no-op. -/
def appendParam (params : URLParams) (key : String) (value : Option String) : URLParams :=
  params ++ optEntry key value

/-- The value under which one updateParam call stores an optional string:
kept when non-null and non-empty, absent otherwise. -/
def optVal (value : Option String) : Option String :=
  match value with
  | some v => if v = "" then none else some v
  | none => none

/-- The sort_order values, as the TypeScript union type asc | desc. -/
inductive SortOrder where
  | asc
  | desc
deriving DecidableEq

/-- The string stored in the sort_order URL parameter. -/
def SortOrder.toParam : SortOrder → String
  | .asc => "asc"
  | .desc => "desc"

/-- The local filter/sort/pagination state of UV_SearchResults (lines
818-845), parametric in the JavaScript number type used for the three
minimum-score values. -/
@[ext]
structure SRState (Num : Type) where
  searchTerm : Option String
  selectedCategory : Option String
  selectedBrand : Option String
  selectedSustainabilityScore : Option Num
  selectedEthicalScore : Option Num
  selectedDurabilityScore : Option Num
  selectedAttributes : List String
  sortBy : Option String
  sortOrder : Option SortOrder
  currentPage : Int
deriving DecidableEq

/-- Array.prototype.join with separator "," on a list of strings. -/
def joinComma (l : List String) : String :=
  ⟨List.intercalate [','] (l.map String.data)⟩

/-- String.prototype.split with separator "," (on a non-empty string, which
is the only way the reading effect calls it). -/
def splitComma (s : String) : List String :=
  (s.data.splitOn ',').map (fun cs => ⟨cs⟩)

/-- The URL-writing effect (lines 922-953) run from an empty search string:
each updateParam call appends the parameter exactly when its value is
non-null and non-empty; the page parameter is included only beyond the
first page. -/
def writeParams {Num : Type} (numToString : Num → String) (s : SRState Num) : URLParams :=
  let p0 : URLParams := []
  let p1 := appendParam p0 "q" s.searchTerm
  let p2 := appendParam p1 "category_id" s.selectedCategory
  let p3 := appendParam p2 "brand_name" s.selectedBrand
  let p4 := appendParam p3 "min_sustainability_score"
    (s.selectedSustainabilityScore.map numToString)
  let p5 := appendParam p4 "min_ethical_score" (s.selectedEthicalScore.map numToString)
  let p6 := appendParam p5 "min_durability_score" (s.selectedDurabilityScore.map numToString)
  let p7 := appendParam p6 "attribute_ids"
    (if s.selectedAttributes.length > 0 then some (joinComma s.selectedAttributes) else none)
  let p8 := appendParam p7 "sort_by" s.sortBy
  let p9 := appendParam p8 "sort_order" (s.sortOrder.map SortOrder.toParam)
  appendParam p9 "page" (if s.currentPage > 1 then some (toString s.currentPage) else none)

/-- The digits-value of a list of decimal digit characters. -/
def digitsToNat (l : List Char) : Nat :=
  l.foldl (fun acc c => 10 * acc + (c.toNat - ('0' : Char).toNat)) 0

/-- JavaScript parseInt(s, 10): the value of the longest leading digit run,
after an optional minus sign; NaN (none) when there is no leading digit. -/
def parseIntJS (s : String) : Option Int :=
  match s.data with
  | '-' :: rest =>
    let ds := rest.takeWhile Char.isDigit
    if ds.isEmpty then none else some (-(digitsToNat ds : Int))
  | l =>
    let ds := l.takeWhile Char.isDigit
    if ds.isEmpty then none else some ((digitsToNat ds : Int))

/-- The score-reading branch of the URL-reading effect (lines 969-991, one
score): a present parameter that parses sets the parsed value, an absent
parameter clears a non-null score, anything else keeps the old value. -/
def readScore {Num : Type} [DecidableEq Num] (parseNum : String → Option Num)
    (url : URLParams) (key : String) (old : Option Num) : Option Num :=
  match getParam url key with
  | some str =>
    match parseNum str with
    | some x => if some x ≠ old then some x else old
    | none => old
  | none => if old.isSome then none else old

/-- The URL-reading effect (lines 956-1016): recomputes every piece of the
local state from the URL search parameters, keeping the old value where the
recomputed one is equal (the effect only calls the setter on change). -/
def applyReadEffect {Num : Type} [DecidableEq Num] (parseNum : String → Option Num)
    (url : URLParams) (s : SRState Num) : SRState Num :=
  let q := getParam url "q"
  let cat := getParam url "category_id"
  let brand := getParam url "brand_name"
  let urlAttributeIds :=
    match getParam url "attribute_ids" with
    | some str => splitComma str
    | none => []
  let sb := getParam url "sort_by"
  let so := getParam url "sort_order"
  let validSo : Option SortOrder :=
    if so = some "asc" then some .asc
    else if so = some "desc" then some .desc
    else none
  let pageStr :=
    match getParam url "page" with
    | some str => if str = "" then "1" else str
    | none => "1"
  { searchTerm := if q ≠ s.searchTerm then q else s.searchTerm
    selectedCategory := if cat ≠ s.selectedCategory then cat else s.selectedCategory
    selectedBrand := if brand ≠ s.selectedBrand then brand else s.selectedBrand
    selectedSustainabilityScore :=
      readScore parseNum url "min_sustainability_score" s.selectedSustainabilityScore
    selectedEthicalScore := readScore parseNum url "min_ethical_score" s.selectedEthicalScore
    selectedDurabilityScore :=
      readScore parseNum url "min_durability_score" s.selectedDurabilityScore
    selectedAttributes :=
      if urlAttributeIds ≠ s.selectedAttributes then urlAttributeIds else s.selectedAttributes
    sortBy := if sb ≠ s.sortBy then sb else s.sortBy
    sortOrder := if validSo ≠ s.sortOrder then validSo else s.sortOrder
    currentPage :=
      match parseIntJS pageStr with
      | some n => if n ≠ s.currentPage then n else s.currentPage
      | none => s.currentPage }

/-! ## Backend models

The backend server implementation is not among the repository sources; only
its OpenAPI declaration (src/backend/openapi.yaml) is.  The definitions in
this section are therefore modelled from the specification (sections 4.1,
4.2, 4.3 and 8 of spec.md) and from the OpenAPI document, as the rules for
missing code require, and each is marked accordingly. -/

/-- Modelled from the spec: a product row of the relational store, with the
fields the catalog query reads (openapi productListCard plus the category,
attribute and creation-time columns it filters and sorts on; scores are
nullable numbers). -/
structure BackendProduct where
  product_id : String
  name : String
  brand_name : String
  primary_image_url : String
  overall_score : Option Rat
  sustainability_score : Option Rat
  ethical_score : Option Rat
  durability_score : Option Rat
  category_id : String
  attribute_ids : List String
  created_at : Int
deriving DecidableEq

/-- The sort_by enum of GET /products (openapi.yaml, lines 375-386). -/
inductive SortField where
  | overall_score
  | sustainability_score
  | ethical_score
  | durability_score
  | name
  | brand_name
  | created_at
deriving DecidableEq

/-- Modelled from the spec: the parsed query parameters of GET /products
(openapi search_and_filter_products parameters; page defaults to 1 and
pageSize to 20). -/
structure ProductQuery where
  q : Option String
  category_id : Option String
  brand_name : Option String
  min_sustainability_score : Option Rat
  min_ethical_score : Option Rat
  min_durability_score : Option Rat
  attribute_ids : List String
  sort_by : Option SortField
  sort_order : Option SortOrder
  page : Int
  pageSize : Int
deriving DecidableEq

/-- Modelled from the spec: a minimum-score threshold is met exactly when
the product has a score and it is at least the threshold, so a null score
never passes a set threshold (spec section 8: filtering by a minimum
sustainability score returns only products with sustainability_score at
least that threshold). -/
def scoreMeets (minScore : Option Rat) (score : Option Rat) : Bool :=
  match minScore with
  | none => true
  | some m =>
    match score with
    | some sc => decide (m ≤ sc)
    | none => false

/-- Modelled from the spec: the free-text match of the catalog query, a
substring match of the query against the product name or brand. -/
def matchesText (q : Option String) (p : BackendProduct) : Bool :=
  match q with
  | none => true
  | some t => decide (t.data <:+: p.name.data) || decide (t.data <:+: p.brand_name.data)

/-- Modelled from the spec: whether a product matches every filter of the
catalog query (spec section 4.1: free-text query, category/brand filters,
three minimum-score thresholds, a set of attribute-id filters). -/
def matchesQuery (query : ProductQuery) (p : BackendProduct) : Bool :=
  matchesText query.q p &&
  (match query.category_id with
   | none => true
   | some c => p.category_id == c) &&
  (match query.brand_name with
   | none => true
   | some b => p.brand_name == b) &&
  scoreMeets query.min_sustainability_score p.sustainability_score &&
  scoreMeets query.min_ethical_score p.ethical_score &&
  scoreMeets query.min_durability_score p.durability_score &&
  query.attribute_ids.all (fun a => p.attribute_ids.contains a)

/-- Modelled from the spec: the comparison used for one sort field in
ascending order; null scores rank lowest (the spec leaves null placement
and tie-breaks to the store default). -/
def productLe (f : SortField) (p q : BackendProduct) : Bool :=
  match f with
  | .overall_score => decide ((p.overall_score.getD 0) ≤ (q.overall_score.getD 0))
  | .sustainability_score =>
    decide ((p.sustainability_score.getD 0) ≤ (q.sustainability_score.getD 0))
  | .ethical_score => decide ((p.ethical_score.getD 0) ≤ (q.ethical_score.getD 0))
  | .durability_score => decide ((p.durability_score.getD 0) ≤ (q.durability_score.getD 0))
  | .name => decide (p.name ≤ q.name)
  | .brand_name => decide (p.brand_name ≤ q.brand_name)
  | .created_at => decide (p.created_at ≤ q.created_at)

/-- Modelled from the spec: ordering of the matching rows by the requested
sort field and direction; without a sort field the store default order (the
catalog order) is kept. -/
def sortProducts (query : ProductQuery) (l : List BackendProduct) : List BackendProduct :=
  match query.sort_by with
  | none => l
  | some f =>
    match query.sort_order with
    | some .desc => l.mergeSort (fun p q => productLe f q p)
    | _ => l.mergeSort (fun p q => productLe f p q)

/-- Modelled from the spec: the GET /products catalog query
(search_and_filter_products): filter the catalog, order the matching rows,
return the requested page slice together with total-count-derived
pagination metadata (spec section 4.1). -/
def search_and_filter_products (catalog : List BackendProduct) (query : ProductQuery) :
    List BackendProduct × PaginationInfo :=
  let matching := catalog.filter (matchesQuery query)
  let sorted := sortProducts query matching
  let items := (sorted.drop ((query.page - 1) * query.pageSize).toNat).take query.pageSize.toNat
  let total : Int := matching.length
  (items,
    { currentPage := query.page
      pageSize := query.pageSize
      totalPages := (total + query.pageSize - 1) / query.pageSize
      totalProducts := total })

/-- Modelled from the spec: a stored user row, with the password as stored
by the auth service. -/
structure BackendUser where
  user_id : String
  username : String
  email : String
  password : String
deriving DecidableEq

/-- The response of POST /auth/login, flattened: HTTP status, the error body
field when present, and the issued token when present (openapi login_user;
errorResponse). -/
structure LoginResponse where
  status : Nat
  error : Option String
  user_id : Option String
  access_token : Option String
deriving DecidableEq

/-- Modelled from the spec: stateless bearer-token issuance on login (spec
section 4.3); the token content is opaque to the claims. -/
def issueToken (u : BackendUser) : String :=
  "token-" ++ u.user_id

/-- Modelled from the spec: POST /auth/login (login_user).  Missing fields
give 400; an unknown email or a password that does not match the stored one
gives 401 with an error body and no token; matching credentials give 200
with a token (spec section 8: login with wrong password returns 401 and
does not issue a token). -/
def login_user (users : List BackendUser) (email password : String) : LoginResponse :=
  if email = "" ∨ password = "" then
    { status := 400, error := some "Email and password are required."
      user_id := none, access_token := none }
  else
    match users.find? (fun u => u.email == email) with
    | none =>
      { status := 401, error := some "Invalid email or password."
        user_id := none, access_token := none }
    | some u =>
      if u.password == password then
        { status := 200, error := none
          user_id := some u.user_id, access_token := some (issueToken u) }
      else
        { status := 401, error := some "Invalid email or password."
          user_id := none, access_token := none }

/-- The response of the bookmark endpoint, flattened: HTTP status, the error
body field when present, and the confirmation message when present. -/
structure BookmarkResponse where
  status : Nat
  error : Option String
  message : Option String
deriving DecidableEq

/-- Modelled from the spec: POST /products/product_id/bookmark
(bookmark_product) for an authenticated user, over the set of (user,
product) bookmark rows: 404 for an unknown product, 409 with an error body
and no change when the row already exists, else 201 adding the row (spec
section 8: bookmarking the same product twice returns 409 on the second
call). -/
def bookmark_product (products : List String) (bookmarks : List (String × String))
    (user_id product_id : String) : BookmarkResponse × List (String × String) :=
  if !(products.contains product_id) then
    ({ status := 404, error := some "Product not found.", message := none }, bookmarks)
  else if bookmarks.contains (user_id, product_id) then
    ({ status := 409, error := some "Product is already bookmarked.", message := none },
      bookmarks)
  else
    ({ status := 201, error := none, message := some "Product bookmarked successfully." },
      bookmarks ++ [(user_id, product_id)])

/-- The moderation_status enum of a review (openapi.yaml, lines 1086-1090). -/
inductive ModerationStatus where
  | pending
  | approved
  | rejected
deriving DecidableEq

/-- Modelled from the spec: the multipart body of POST
/products/product_id/reviews as the client sends it (submit_review_for_product;
the confirmation checkbox is not part of the wire format). -/
structure ReviewInput where
  title : String
  body : String
  overall_rating : Int
  sustainability_rating : Option Int
  ethical_rating : Option Int
  durability_rating : Option Int
  photos : List String
deriving DecidableEq

/-- Modelled from the spec: a persisted review row, carrying its moderation
status. -/
structure ReviewRecord where
  review_id : String
  product_id : String
  user_id : String
  title : String
  body : String
  overall_rating : Int
  sustainability_rating : Option Int
  ethical_rating : Option Int
  durability_rating : Option Int
  photo_urls : List String
  moderation_status : ModerationStatus
deriving DecidableEq

/-- A rating value is within the 1 to 5 star range. -/
def ratingInRange (r : Int) : Bool :=
  decide (1 ≤ r) && decide (r ≤ 5)

/-- An optional rating is absent or within range. -/
def optRatingInRange (r : Option Int) : Bool :=
  match r with
  | none => true
  | some v => ratingInRange v

/-- The response of the review submission endpoint, flattened. -/
structure ReviewResponse where
  status : Nat
  review_id : Option String
  error : Option String
deriving DecidableEq

/-- Modelled from the spec: POST /products/product_id/reviews
(submit_review_for_product): 401 without authentication, 404 for an unknown
product, 400 when the validation of spec section 4.2 fails (title and body
non-empty, overall rating in 1 to 5, optional sub-ratings in 1 to 5 or
absent), and otherwise 201, persisting the review with moderation_status
pending and the photos referenced by URL. -/
def submit_review_for_product (products : List String) (reviews : List ReviewRecord)
    (authenticated : Bool) (user_id product_id : String) (input : ReviewInput) :
    ReviewResponse × List ReviewRecord :=
  if !authenticated then
    ({ status := 401, review_id := none, error := some "Authentication required." }, reviews)
  else if !(products.contains product_id) then
    ({ status := 404, review_id := none, error := some "Product not found." }, reviews)
  else if trimJS input.title = "" ∨ trimJS input.body = "" ∨
      !ratingInRange input.overall_rating ∨
      !optRatingInRange input.sustainability_rating ∨
      !optRatingInRange input.ethical_rating ∨
      !optRatingInRange input.durability_rating then
    ({ status := 400, review_id := none, error := some "Invalid review input." }, reviews)
  else
    let r : ReviewRecord :=
      { review_id := "review-" ++ toString reviews.length
        product_id := product_id
        user_id := user_id
        title := trimJS input.title
        body := trimJS input.body
        overall_rating := input.overall_rating
        sustainability_rating := input.sustainability_rating
        ethical_rating := input.ethical_rating
        durability_rating := input.durability_rating
        photo_urls := input.photos
        moderation_status := ModerationStatus.pending }
    ({ status := 201, review_id := some r.review_id, error := none }, reviews ++ [r])

/-- The same catalog request with the pagination parameters replaced. -/
def withPage (query : ProductQuery) (page pageSize : Int) : ProductQuery :=
  { query with page := page, pageSize := pageSize }

/-! ## Sample inputs used by closed instances -/

/-- A form state passing every check of handleSubmit. -/
def reviewFormOk : ReviewFormState :=
  ⟨"t", "b", some 5, none, none, none, true, []⟩

/-- A form state with an empty title. -/
def reviewFormBadTitle : ReviewFormState :=
  ⟨"", "b", some 5, none, none, none, true, []⟩

/-- A form state whose sustainability sub-rating is 7, outside 1 to 5,
with every field handleSubmit checks valid. -/
def reviewFormBadSub : ReviewFormState :=
  ⟨"t", "b", some 5, some 7, none, none, true, []⟩

/-- A catalog query asking for a minimum sustainability score of 4.5 and
nothing else. -/
def query45 : ProductQuery :=
  ⟨none, none, none, some (4.5 : Rat), none, none, [], none, none, 1, 20⟩

/-- A one-product catalog. -/
def catalog45 : List BackendProduct :=
  [⟨"p1", "n", "b", "", none, some 5, none, none, "c", [], 0⟩]

/-- A catalog of twenty distinct products. -/
def catalog20 : List BackendProduct :=
  (List.range 20).map
    (fun i => ⟨"p" ++ toString i, "n", "b", "", none, none, none, none, "c", [], 0⟩)

/-- A catalog request with no filter and no sort. -/
def queryAll : ProductQuery :=
  ⟨none, none, none, none, none, none, [], none, none, 1, 20⟩

/-- A search-results state exercising every URL parameter, with integral
score values. -/
def srStateFull : SRState Int :=
  ⟨some "eco", some "c1", some "b1", some 4, none, some 2, ["a1", "a2"],
    some "name", some SortOrder.asc, 3⟩

/-- A search-results state sitting on page 0 with no filter set. -/
def srStatePageZero : SRState Int :=
  ⟨none, none, none, none, none, none, [], none, none, 0⟩

/-! ## Theorems -/

/-- C9: for every store state, set_search_term sets search_term to the given
value, resets category_id, brand_name and the three minimum-score filters to
null and attribute_ids to the empty list, and leaves sort_by, sort_order and
every non-filter slice of the store (auth, products, categories, attributes,
notifications) unchanged. -/
theorem C9_set_search_term_frame (term : Option String) (s : AppState) :
    (set_search_term term s).filters.search_term = term ∧
    (set_search_term term s).filters.category_id = none ∧
    (set_search_term term s).filters.brand_name = none ∧
    (set_search_term term s).filters.min_sustainability_score = none ∧
    (set_search_term term s).filters.min_ethical_score = none ∧
    (set_search_term term s).filters.min_durability_score = none ∧
    (set_search_term term s).filters.attribute_ids = [] ∧
    (set_search_term term s).filters.sort_by = s.filters.sort_by ∧
    (set_search_term term s).filters.sort_order = s.filters.sort_order ∧
    (set_search_term term s).auth = s.auth ∧
    (set_search_term term s).products = s.products ∧
    (set_search_term term s).categories = s.categories ∧
    (set_search_term term s).attributes = s.attributes ∧
    (set_search_term term s).notifications = s.notifications :=
  ⟨rfl, rfl, rfl, rfl, rfl, rfl, rfl, rfl, rfl, rfl, rfl, rfl, rfl, rfl⟩

/-- Toggling an attribute id twice leaves the membership of the attribute
list unchanged, whatever the list. -/
theorem mem_toggleAttributeList_twice (a x : String) (l : List String) :
    x ∈ toggleAttributeList a (toggleAttributeList a l) ↔ x ∈ l := by
  unfold toggleAttributeList
  by_cases h1 : a ∈ l
  · have hc1 : l.contains a = true := by simp [h1]
    have hc2 : (l.filter (fun id => id != a)).contains a = false := by
      simp [List.mem_filter]
    simp only [hc1, if_true, hc2, if_false, Bool.false_eq_true]
    simp only [List.mem_append, List.mem_filter, List.mem_singleton, bne_iff_ne, ne_eq,
      decide_eq_true_eq]
    constructor
    · rintro (⟨hx, _⟩ | rfl)
      · exact hx
      · exact h1
    · intro hx
      by_cases hxa : x = a
      · exact Or.inr hxa
      · exact Or.inl ⟨hx, hxa⟩
  · have hc1 : l.contains a = false := by simp [h1]
    have hc2 : (l ++ [a]).contains a = true := by simp
    simp only [hc1, Bool.false_eq_true, if_false, hc2, if_true]
    simp only [List.mem_filter, List.mem_append, List.mem_singleton, bne_iff_ne, ne_eq,
      decide_eq_true_eq]
    constructor
    · rintro ⟨hx | rfl, hxa⟩
      · exact hx
      · exact absurd rfl hxa
    · intro hx
      refine ⟨Or.inl hx, ?_⟩
      intro rfl_eq
      exact h1 (rfl_eq ▸ hx)

/-- C10: for every store state whose attribute_ids list has no duplicates,
applying toggle_attribute_filter twice with the same attribute id yields a
state whose attribute_ids has exactly the same members as the original, and
leaves every other store field (the other filter fields and the other
slices) unchanged. -/
theorem C10_toggle_attribute_filter_twice (attribute_id : String) (s : AppState)
    (hnodup : s.filters.attribute_ids.Nodup) :
    (∀ x, x ∈ (toggle_attribute_filter attribute_id
        (toggle_attribute_filter attribute_id s)).filters.attribute_ids ↔
        x ∈ s.filters.attribute_ids) ∧
    (toggle_attribute_filter attribute_id
      (toggle_attribute_filter attribute_id s)).filters.search_term = s.filters.search_term ∧
    (toggle_attribute_filter attribute_id
      (toggle_attribute_filter attribute_id s)).filters.category_id = s.filters.category_id ∧
    (toggle_attribute_filter attribute_id
      (toggle_attribute_filter attribute_id s)).filters.brand_name = s.filters.brand_name ∧
    (toggle_attribute_filter attribute_id
      (toggle_attribute_filter attribute_id s)).filters.min_sustainability_score =
      s.filters.min_sustainability_score ∧
    (toggle_attribute_filter attribute_id
      (toggle_attribute_filter attribute_id s)).filters.min_ethical_score =
      s.filters.min_ethical_score ∧
    (toggle_attribute_filter attribute_id
      (toggle_attribute_filter attribute_id s)).filters.min_durability_score =
      s.filters.min_durability_score ∧
    (toggle_attribute_filter attribute_id
      (toggle_attribute_filter attribute_id s)).filters.sort_by = s.filters.sort_by ∧
    (toggle_attribute_filter attribute_id
      (toggle_attribute_filter attribute_id s)).filters.sort_order = s.filters.sort_order ∧
    (toggle_attribute_filter attribute_id
      (toggle_attribute_filter attribute_id s)).auth = s.auth ∧
    (toggle_attribute_filter attribute_id
      (toggle_attribute_filter attribute_id s)).products = s.products ∧
    (toggle_attribute_filter attribute_id
      (toggle_attribute_filter attribute_id s)).categories = s.categories ∧
    (toggle_attribute_filter attribute_id
      (toggle_attribute_filter attribute_id s)).attributes = s.attributes ∧
    (toggle_attribute_filter attribute_id
      (toggle_attribute_filter attribute_id s)).notifications = s.notifications :=
  ⟨fun x => mem_toggleAttributeList_twice attribute_id x s.filters.attribute_ids,
    rfl, rfl, rfl, rfl, rfl, rfl, rfl, rfl, rfl, rfl, rfl, rfl, rfl⟩

/-- Closed instance of C10 at a concrete store state, discharging the
no-duplicates hypothesis. -/
theorem C10_toggle_attribute_filter_twice_witness :
    ({ auth := ⟨false, none, none, none, none, none, false, none⟩
       products := ⟨[], ⟨1, 20, 0, 0⟩, false, none⟩
       filters := ⟨none, none, none, none, none, none, ["a1", "a2"], none, none⟩
       categories := ⟨[], false, none⟩
       attributes := ⟨[], false, none⟩
       notifications := ⟨none, NotificationType.info, false⟩ } : AppState).filters.attribute_ids.Nodup ∧
    ("a1" ∈ (toggle_attribute_filter "a2"
        (toggle_attribute_filter "a2"
          { auth := ⟨false, none, none, none, none, none, false, none⟩
            products := ⟨[], ⟨1, 20, 0, 0⟩, false, none⟩
            filters := ⟨none, none, none, none, none, none, ["a1", "a2"], none, none⟩
            categories := ⟨[], false, none⟩
            attributes := ⟨[], false, none⟩
            notifications := ⟨none, NotificationType.info, false⟩ })).filters.attribute_ids ↔
      "a1" ∈ (["a1", "a2"] : List String)) :=
  ⟨by decide,
    (C10_toggle_attribute_filter_twice "a2" _ (by decide)).1 "a1"⟩

/-- A file is flagged invalid exactly when its MIME type is not allowed or
its size exceeds the limit. -/
theorem fileInvalid_iff (f : JSFile) :
    fileInvalid f = true ↔ (f.type ∉ allowedTypes ∨ f.size > maxSize) := by
  unfold fileInvalid
  by_cases ht : f.type ∈ allowedTypes
  · have : allowedTypes.contains f.type = true := by simp [ht]
    simp only [this, Bool.not_true, Bool.false_eq_true, if_false]
    by_cases hs : f.size > maxSize
    · simp [hs, ht]
    · simp [hs, ht]
  · have : allowedTypes.contains f.type = false := by simp [ht]
    simp [this, ht]

/-- C8: for every file selection, if any selected file has a disallowed MIME
type or a size above 5MB, no upload is triggered for any file of the
selection; otherwise an upload is triggered for every selected file. -/
theorem C8_file_select_all_or_nothing (files : List JSFile) :
    ((∃ f ∈ files, f.type ∉ allowedTypes ∨ f.size > maxSize) →
      handleFileSelect files = []) ∧
    ((∀ f ∈ files, f.type ∈ allowedTypes ∧ f.size ≤ maxSize) →
      handleFileSelect files = files) := by
  constructor
  · rintro ⟨f, hf, hbad⟩
    have hany : files.any fileInvalid = true :=
      List.any_eq_true.mpr ⟨f, hf, (fileInvalid_iff f).mpr hbad⟩
    unfold handleFileSelect
    by_cases hlen : files.length = 0
    · simp [hlen]
    · simp [hlen, hany]
  · intro hall
    have hany : files.any fileInvalid = false := by
      rw [Bool.eq_false_iff]
      intro hcontra
      obtain ⟨f, hf, hinv⟩ := List.any_eq_true.mp hcontra
      rcases (fileInvalid_iff f).mp hinv with h | h
      · exact h (hall f hf).1
      · exact absurd (hall f hf).2 (by omega)
    unfold handleFileSelect
    by_cases hlen : files.length = 0
    · have : files = [] := List.length_eq_zero.mp hlen
      simp [this]
    · simp [hlen, hany]

/-- Closed instance of C8 at two concrete selections: a selection holding
one invalid file uploads nothing (not even its valid member), and an
all-valid selection uploads every file. -/
theorem C8_file_select_witness :
    handleFileSelect
      [⟨"a.pdf", "application/pdf", 10⟩, ⟨"b.png", "image/png", 10⟩] = [] ∧
    handleFileSelect [⟨"c.png", "image/png", 10⟩] = [⟨"c.png", "image/png", 10⟩] :=
  ⟨(C8_file_select_all_or_nothing _).1
      ⟨⟨"a.pdf", "application/pdf", 10⟩, by decide, by decide⟩,
    (C8_file_select_all_or_nothing _).2 (by decide)⟩

/-- C5: for every login request with a non-missing email and password where
the stored password of the user found for that email does not match the
given one, the response has status 401 with an error body and carries no
access token. (Modelled from the spec: the backend implementation is not
among the sources.) -/
theorem C5_login_wrong_password (users : List BackendUser) (email password : String)
    (u : BackendUser)
    (hemail : email ≠ "") (hpassword : password ≠ "")
    (hfind : users.find? (fun v => v.email == email) = some u)
    (hwrong : u.password ≠ password) :
    (login_user users email password).status = 401 ∧
    (login_user users email password).error.isSome = true ∧
    (login_user users email password).access_token = none := by
  unfold login_user
  rw [if_neg (by tauto), hfind]
  have hbeq : (u.password == password) = false := by simp [hwrong]
  simp [hbeq]

/-- Closed instance of C5: a concrete store with one user and a wrong
password gives 401 and no token. -/
theorem C5_login_wrong_password_witness :
    (login_user [⟨"u1", "alice", "a@x.com", "secret"⟩] "a@x.com" "wrong").status = 401 ∧
    (login_user [⟨"u1", "alice", "a@x.com", "secret"⟩] "a@x.com" "wrong").error.isSome = true ∧
    (login_user [⟨"u1", "alice", "a@x.com", "secret"⟩] "a@x.com" "wrong").access_token = none :=
  C5_login_wrong_password [⟨"u1", "alice", "a@x.com", "secret"⟩] "a@x.com" "wrong"
    ⟨"u1", "alice", "a@x.com", "secret"⟩ (by decide) (by decide) (by decide) (by decide)

/-- C6: if bookmarking a product succeeds once with 201, an identical second
call by the same user returns 409 with an error body and leaves the
bookmark rows unchanged. (Modelled from the spec: the backend implementation
is not among the sources.) -/
theorem C6_bookmark_twice_conflict (products : List String)
    (bookmarks : List (String × String)) (user_id product_id : String)
    (hfirst : (bookmark_product products bookmarks user_id product_id).1.status = 201) :
    (bookmark_product products
      ((bookmark_product products bookmarks user_id product_id).2)
      user_id product_id).1.status = 409 ∧
    (bookmark_product products
      ((bookmark_product products bookmarks user_id product_id).2)
      user_id product_id).1.error.isSome = true ∧
    (bookmark_product products
      ((bookmark_product products bookmarks user_id product_id).2)
      user_id product_id).2 =
      (bookmark_product products bookmarks user_id product_id).2 := by
  by_cases hp : products.contains product_id
  · by_cases hb : bookmarks.contains (user_id, product_id)
    · exfalso
      unfold bookmark_product at hfirst
      rw [hp] at hfirst
      simp only [Bool.not_true, Bool.false_eq_true, if_false, hb, if_true] at hfirst
      exact absurd hfirst (by decide)
    · have hstate : (bookmark_product products bookmarks user_id product_id).2 =
          bookmarks ++ [(user_id, product_id)] := by
        unfold bookmark_product
        rw [hp]
        simp only [Bool.not_true, Bool.false_eq_true, if_false, hb, if_false]
      rw [hstate]
      have hb2 : (bookmarks ++ [(user_id, product_id)]).contains (user_id, product_id) = true := by
        simp
      unfold bookmark_product
      rw [hp]
      simp only [Bool.not_true, Bool.false_eq_true, if_false, hb2, if_true]
      simp
  · exfalso
    have hp2 : products.contains product_id = false := Bool.eq_false_iff.mpr hp
    unfold bookmark_product at hfirst
    rw [hp2] at hfirst
    simp at hfirst

/-- Closed instance of C6 at a concrete catalog and empty bookmark set. -/
theorem C6_bookmark_twice_conflict_witness :
    (bookmark_product ["p1"] ((bookmark_product ["p1"] [] "u1" "p1").2) "u1" "p1").1.status = 409 ∧
    (bookmark_product ["p1"] ((bookmark_product ["p1"] [] "u1" "p1").2) "u1" "p1").1.error.isSome
      = true ∧
    (bookmark_product ["p1"] ((bookmark_product ["p1"] [] "u1" "p1").2) "u1" "p1").2 =
      (bookmark_product ["p1"] [] "u1" "p1").2 :=
  C6_bookmark_twice_conflict ["p1"] [] "u1" "p1" (by decide)

/-- C7: every review accepted with 201 is persisted as a new row whose
moderation_status is pending; a fresh review is never created approved or
rejected. (Modelled from the spec: the backend implementation is not among
the sources.) -/
theorem C7_review_created_pending (products : List String) (reviews : List ReviewRecord)
    (authenticated : Bool) (user_id product_id : String) (input : ReviewInput)
    (h201 : (submit_review_for_product products reviews authenticated
      user_id product_id input).1.status = 201) :
    ∃ r : ReviewRecord,
      (submit_review_for_product products reviews authenticated
        user_id product_id input).2 = reviews ++ [r] ∧
      r.moderation_status = ModerationStatus.pending := by
  unfold submit_review_for_product at h201 ⊢
  by_cases ha : authenticated
  · simp only [ha, Bool.not_true, Bool.false_eq_true, if_false] at h201 ⊢
    by_cases hp : products.contains product_id
    · simp only [hp, Bool.not_true, Bool.false_eq_true, if_false] at h201 ⊢
      by_cases hv : trimJS input.title = "" ∨ trimJS input.body = "" ∨
          !ratingInRange input.overall_rating ∨
          !optRatingInRange input.sustainability_rating ∨
          !optRatingInRange input.ethical_rating ∨
          !optRatingInRange input.durability_rating
      · rw [if_pos hv] at h201
        simp at h201
      · rw [if_neg hv] at h201 ⊢
        exact ⟨_, rfl, rfl⟩
    · simp only [hp, Bool.not_false, if_true] at h201
      simp at h201
  · simp only [ha, Bool.not_false, if_true] at h201
    simp at h201

/-- Closed instance of C7: a valid concrete submission persists one pending
review. -/
theorem C7_review_created_pending_witness :
    ∃ r : ReviewRecord,
      (submit_review_for_product ["p1"] [] true "u1" "p1"
        ⟨"Great", "Nice product", 5, none, some 4, none, []⟩).2 = [] ++ [r] ∧
      r.moderation_status = ModerationStatus.pending :=
  C7_review_created_pending ["p1"] [] true "u1" "p1"
    ⟨"Great", "Nice product", 5, none, some 4, none, []⟩ (by decide)

/-- The validation block of handleSubmit produces no error exactly when the
trimmed title is non-empty, the trimmed body is non-empty, the overall
rating is present and in 1 to 5, and the confirmation checkbox is set. -/
theorem validateReviewForm_eq_nil_iff (s : ReviewFormState) :
    validateReviewForm s = [] ↔
      (trimJS s.review_title ≠ "" ∧ trimJS s.review_body ≠ "" ∧
        (∃ r, s.overall_rating = some r ∧ 1 ≤ r ∧ r ≤ 5) ∧
        s.confirmation_checkbox = true) := by
  cases ho : s.overall_rating with
  | none =>
    simp [validateReviewForm, ho, List.append_eq_nil, ite_eq_right_iff]
  | some r =>
    simp [validateReviewForm, ho, List.append_eq_nil, ite_eq_right_iff]

/-- handleSubmit triggers the mutation exactly when the validation block
produced no error. -/
theorem handleSubmit_isSome_iff (s : ReviewFormState) :
    (handleSubmit s).isSome = true ↔ validateReviewForm s = [] := by
  unfold handleSubmit
  by_cases h : (validateReviewForm s).length > 0
  · have : validateReviewForm s ≠ [] := by
      intro hnil
      rw [hnil] at h
      simp at h
    simp [h, this]
  · have hz : (validateReviewForm s).length = 0 := by omega
    have : validateReviewForm s = [] := List.length_eq_zero.mp hz
    simp [h, this]

/-- C1 counterexample: at a concrete form state whose sustainability
sub-rating is 7 (outside 1 to 5) and whose other fields are valid, the
submit handler records no field-level validation error and does make the
submission request, refuting the claim that a request is sent only when
every optional sub-rating is in 1 to 5 or absent. -/
theorem C1_sub_rating_not_validated :
    ¬ subRatingOk reviewFormBadSub.sustainability_rating ∧
    validateReviewForm reviewFormBadSub = [] ∧
    (handleSubmit reviewFormBadSub).isSome = true := by decide

/-- C1 (amended): the submit handler sends the review exactly when the
trimmed title is non-empty, the trimmed body is non-empty, the overall
rating is an integer in 1 to 5 and the confirmation checkbox is set; the
optional sub-ratings are not validated and are passed to the request
unchanged; when any check fails a field-level validation error is recorded
and no request is made. -/
theorem C1_submit_validation (s : ReviewFormState) :
    ((handleSubmit s).isSome = true ↔
      (trimJS s.review_title ≠ "" ∧ trimJS s.review_body ≠ "" ∧
        (∃ r, s.overall_rating = some r ∧ 1 ≤ r ∧ r ≤ 5) ∧
        s.confirmation_checkbox = true)) ∧
    (handleSubmit s = none → validateReviewForm s ≠ []) ∧
    (∀ p, handleSubmit s = some p →
      p.sustainability_rating = s.sustainability_rating ∧
      p.ethical_rating = s.ethical_rating ∧
      p.durability_rating = s.durability_rating) := by
  refine ⟨(handleSubmit_isSome_iff s).trans (validateReviewForm_eq_nil_iff s), ?_, ?_⟩
  · intro hnone hnil
    have : (handleSubmit s).isSome = true := (handleSubmit_isSome_iff s).mpr hnil
    rw [hnone] at this
    simp at this
  · intro p hp
    unfold handleSubmit at hp
    by_cases h : (validateReviewForm s).length > 0
    · rw [if_pos h] at hp
      simp at hp
    · rw [if_neg h] at hp
      have := Option.some.inj hp
      rw [← this]
      exact ⟨rfl, rfl, rfl⟩

/-- Closed instance of C1 (amended): a fully valid concrete state submits,
and a concrete state with an empty title is rejected with a recorded
validation error. -/
theorem C1_submit_validation_witness :
    (handleSubmit reviewFormOk).isSome = true ∧
    validateReviewForm reviewFormBadTitle ≠ [] :=
  ⟨((C1_submit_validation reviewFormOk).1).mpr
      ⟨by decide, by decide, ⟨5, rfl, by decide, by decide⟩, rfl⟩,
    ((C1_submit_validation reviewFormBadTitle).2).1 (by decide)⟩

/-- Membership in the pagination slice implies membership in the filtered
catalog. -/
theorem mem_page_mem_matching (catalog : List BackendProduct) (query : ProductQuery)
    (p : BackendProduct) (hp : p ∈ (search_and_filter_products catalog query).1) :
    p ∈ catalog.filter (matchesQuery query) := by
  unfold search_and_filter_products at hp
  simp only at hp
  have hp1 : p ∈ sortProducts query (catalog.filter (matchesQuery query)) :=
    List.mem_of_mem_drop (List.mem_of_mem_take hp)
  unfold sortProducts at hp1
  cases hq : query.sort_by with
  | none =>
    rw [hq] at hp1
    exact hp1
  | some f =>
    rw [hq] at hp1
    cases ho : query.sort_order with
    | none =>
      rw [ho] at hp1
      exact List.mem_mergeSort.mp hp1
    | some dir =>
      cases dir with
      | asc =>
        rw [ho] at hp1
        exact List.mem_mergeSort.mp hp1
      | desc =>
        rw [ho] at hp1
        exact List.mem_mergeSort.mp hp1

/-- C3: for every catalog, every product on the page returned for a query
with min_sustainability_score = 4.5 has a non-null sustainability score of
at least 4.5. (Modelled from the spec: the backend implementation is not
among the sources.) -/
theorem C3_min_sustainability_filter (catalog : List BackendProduct) (query : ProductQuery)
    (hmin : query.min_sustainability_score = some (4.5 : Rat)) :
    ∀ p ∈ (search_and_filter_products catalog query).1,
      ∃ sc : Rat, p.sustainability_score = some sc ∧ (4.5 : Rat) ≤ sc := by
  intro p hp
  have hp2 := mem_page_mem_matching catalog query p hp
  have hmatch : matchesQuery query p = true := (List.mem_filter.mp hp2).2
  unfold matchesQuery at hmatch
  simp only [Bool.and_eq_true] at hmatch
  have hsc : scoreMeets query.min_sustainability_score p.sustainability_score = true :=
    hmatch.1.1.1.2
  rw [hmin] at hsc
  unfold scoreMeets at hsc
  cases hps : p.sustainability_score with
  | none =>
    rw [hps] at hsc
    simp at hsc
  | some sc =>
    rw [hps] at hsc
    exact ⟨sc, rfl, of_decide_eq_true hsc⟩

/-- Closed instance of C3 at a concrete catalog and the concrete query with
min_sustainability_score = 4.5. -/
theorem C3_min_sustainability_filter_witness :
    query45.min_sustainability_score = some (4.5 : Rat) ∧
    (∀ p ∈ (search_and_filter_products catalog45 query45).1,
      ∃ sc : Rat, p.sustainability_score = some sc ∧ (4.5 : Rat) ≤ sc) :=
  ⟨rfl, C3_min_sustainability_filter catalog45 query45 rfl⟩

/-- The ordering step of the catalog query is a permutation of its input. -/
theorem sortProducts_perm (query : ProductQuery) (l : List BackendProduct) :
    (sortProducts query l).Perm l := by
  unfold sortProducts
  cases query.sort_by with
  | none => exact List.Perm.refl l
  | some f =>
    cases query.sort_order with
    | none => exact List.mergeSort_perm l _
    | some dir =>
      cases dir with
      | asc => exact List.mergeSort_perm l _
      | desc => exact List.mergeSort_perm l _

/-- C4: on a fixed catalog whose matching set has at least 20 pairwise
distinct rows, the page-2 size-10 request returns exactly the second slice
of ten of the ordered matching rows: ten products, all matching, and
disjoint from the ten returned by the page-1 size-10 request. (Modelled
from the spec: the backend implementation is not among the sources.) -/
theorem C4_second_page_disjoint (catalog : List BackendProduct) (query : ProductQuery)
    (h20 : 20 ≤ (catalog.filter (matchesQuery query)).length)
    (hnodup : (catalog.filter (matchesQuery query)).Nodup) :
    (search_and_filter_products catalog (withPage query 2 10)).1 =
      ((sortProducts query (catalog.filter (matchesQuery query))).drop 10).take 10 ∧
    (search_and_filter_products catalog (withPage query 1 10)).1.length = 10 ∧
    (search_and_filter_products catalog (withPage query 2 10)).1.length = 10 ∧
    (∀ p ∈ (search_and_filter_products catalog (withPage query 2 10)).1,
      p ∈ catalog.filter (matchesQuery query)) ∧
    (search_and_filter_products catalog (withPage query 1 10)).1.Disjoint
      (search_and_filter_products catalog (withPage query 2 10)).1 := by
  have hpage1 : (search_and_filter_products catalog (withPage query 1 10)).1 =
      (sortProducts query (catalog.filter (matchesQuery query))).take 10 := rfl
  have hpage2 : (search_and_filter_products catalog (withPage query 2 10)).1 =
      ((sortProducts query (catalog.filter (matchesQuery query))).drop 10).take 10 := rfl
  have hlen : (sortProducts query (catalog.filter (matchesQuery query))).length =
      (catalog.filter (matchesQuery query)).length :=
    (sortProducts_perm query _).length_eq
  have hnodupL : (sortProducts query (catalog.filter (matchesQuery query))).Nodup :=
    ((sortProducts_perm query _).nodup_iff).mpr hnodup
  refine ⟨hpage2, ?_, ?_, ?_, ?_⟩
  · rw [hpage1, List.length_take]
    omega
  · rw [hpage2, List.length_take, List.length_drop]
    omega
  · intro p hp
    exact mem_page_mem_matching catalog (withPage query 2 10) p hp
  · rw [hpage1, hpage2]
    intro a ha hb
    exact List.disjoint_take_drop hnodupL (le_refl 10) ha (List.take_subset _ _ hb)

/-- Closed instance of C4 at a twenty-product catalog with no filters. -/
theorem C4_second_page_disjoint_witness :
    20 ≤ (catalog20.filter (matchesQuery queryAll)).length ∧
    (search_and_filter_products catalog20 (withPage queryAll 1 10)).1.Disjoint
      (search_and_filter_products catalog20 (withPage queryAll 2 10)).1 :=
  ⟨by decide,
    (C4_second_page_disjoint catalog20 queryAll (by decide) (by decide)).2.2.2.2⟩

/-- Lookup distributes over concatenated parameter lists. -/
theorem getParam_append (l1 l2 : URLParams) (key : String) :
    getParam (l1 ++ l2) key = (getParam l1 key).or (getParam l2 key) := by
  unfold getParam
  rw [List.find?_append]
  cases List.find? (fun p => p.1 == key) l1 <;> simp

/-- Looking up the key of a single updateParam entry yields the kept
value. -/
theorem getParam_optEntry_self (key : String) (v : Option String) :
    getParam (optEntry key v) key = optVal v := by
  cases v with
  | none => rfl
  | some str =>
    unfold optEntry optVal
    by_cases h : str = ""
    · simp [h, getParam]
    · simp [h, getParam]

/-- Looking up a different key in a single updateParam entry yields null. -/
theorem getParam_optEntry_ne (key key2 : String) (v : Option String)
    (h : (key2 == key) = false) :
    getParam (optEntry key2 v) key = none := by
  cases v with
  | none => rfl
  | some str =>
    unfold optEntry
    by_cases hs : str = ""
    · simp [hs, getParam]
    · simp [hs, getParam, h]

/-- The q parameter written for a state is its search term when non-empty. -/
theorem getParam_writeParams_q {Num : Type} (nts : Num → String) (s : SRState Num) :
    getParam (writeParams nts s) "q" = optVal s.searchTerm := by
  simp [writeParams, appendParam, getParam_append, getParam_optEntry_self, getParam_optEntry_ne]

/-- The category_id parameter written for a state. -/
theorem getParam_writeParams_category {Num : Type} (nts : Num → String) (s : SRState Num) :
    getParam (writeParams nts s) "category_id" = optVal s.selectedCategory := by
  simp [writeParams, appendParam, getParam_append, getParam_optEntry_self, getParam_optEntry_ne]

/-- The brand_name parameter written for a state. -/
theorem getParam_writeParams_brand {Num : Type} (nts : Num → String) (s : SRState Num) :
    getParam (writeParams nts s) "brand_name" = optVal s.selectedBrand := by
  simp [writeParams, appendParam, getParam_append, getParam_optEntry_self, getParam_optEntry_ne]

/-- The min_sustainability_score parameter written for a state. -/
theorem getParam_writeParams_sus {Num : Type} (nts : Num → String) (s : SRState Num) :
    getParam (writeParams nts s) "min_sustainability_score" =
      optVal (s.selectedSustainabilityScore.map nts) := by
  simp [writeParams, appendParam, getParam_append, getParam_optEntry_self, getParam_optEntry_ne]

/-- The min_ethical_score parameter written for a state. -/
theorem getParam_writeParams_eth {Num : Type} (nts : Num → String) (s : SRState Num) :
    getParam (writeParams nts s) "min_ethical_score" =
      optVal (s.selectedEthicalScore.map nts) := by
  simp [writeParams, appendParam, getParam_append, getParam_optEntry_self, getParam_optEntry_ne]

/-- The min_durability_score parameter written for a state. -/
theorem getParam_writeParams_dur {Num : Type} (nts : Num → String) (s : SRState Num) :
    getParam (writeParams nts s) "min_durability_score" =
      optVal (s.selectedDurabilityScore.map nts) := by
  simp [writeParams, appendParam, getParam_append, getParam_optEntry_self, getParam_optEntry_ne]

/-- The attribute_ids parameter written for a state. -/
theorem getParam_writeParams_attrs {Num : Type} (nts : Num → String) (s : SRState Num) :
    getParam (writeParams nts s) "attribute_ids" =
      optVal (if s.selectedAttributes.length > 0
        then some (joinComma s.selectedAttributes) else none) := by
  simp [writeParams, appendParam, getParam_append, getParam_optEntry_self, getParam_optEntry_ne]

/-- The sort_by parameter written for a state. -/
theorem getParam_writeParams_sortBy {Num : Type} (nts : Num → String) (s : SRState Num) :
    getParam (writeParams nts s) "sort_by" = optVal s.sortBy := by
  simp [writeParams, appendParam, getParam_append, getParam_optEntry_self, getParam_optEntry_ne]

/-- The sort_order parameter written for a state. -/
theorem getParam_writeParams_sortOrder {Num : Type} (nts : Num → String) (s : SRState Num) :
    getParam (writeParams nts s) "sort_order" =
      optVal (s.sortOrder.map SortOrder.toParam) := by
  simp [writeParams, appendParam, getParam_append, getParam_optEntry_self, getParam_optEntry_ne]

/-- The page parameter written for a state: present only beyond page 1. -/
theorem getParam_writeParams_page {Num : Type} (nts : Num → String) (s : SRState Num) :
    getParam (writeParams nts s) "page" =
      optVal (if s.currentPage > 1 then some (toString s.currentPage) else none) := by
  simp [writeParams, appendParam, getParam_append, getParam_optEntry_self, getParam_optEntry_ne]

/-- Reading back a written optional string parameter that is not the empty
string restores it. -/
theorem readBack_optVal (v : Option String) (hv : v ≠ some "") :
    (if optVal v ≠ v then optVal v else v) = v := by
  cases v with
  | none => simp [optVal]
  | some str =>
    have hs : str ≠ "" := fun h => hv (by rw [h])
    simp [optVal, hs]

/-- Reading back a written score parameter restores the old score, given the
JavaScript number-to-string round-trip at its value. -/
theorem readScore_writeBack {Num : Type} [DecidableEq Num] (parseNum : String → Option Num)
    (url : URLParams) (key : String) (old : Option Num) (nts : Num → String)
    (hurl : getParam url key = optVal (old.map nts))
    (hrt : ∀ x, old = some x → parseNum (nts x) = some x ∧ nts x ≠ "") :
    readScore parseNum url key old = old := by
  unfold readScore
  rw [hurl]
  cases old with
  | none => simp [optVal]
  | some x =>
    obtain ⟨hparse, hne⟩ := hrt x rfl
    simp [optVal, hne, hparse]

/-- Splitting the comma join of comma-free strings restores the list. -/
theorem splitComma_joinComma (l : List String)
    (hc : ∀ a ∈ l, (',' : Char) ∉ a.data) (hne : l ≠ []) :
    splitComma (joinComma l) = l := by
  unfold splitComma joinComma
  show ((List.intercalate [','] (l.map String.data)).splitOn ',').map
    (fun cs => String.mk cs) = l
  rw [show List.intercalate [','] (l.map String.data) =
    ([','] : List Char).intercalate (l.map String.data) from rfl]
  rw [List.splitOn_intercalate (l.map String.data) ',' ?hx ?hne2]
  case hx =>
    intro cs hcs
    rw [List.mem_map] at hcs
    obtain ⟨a, ha, rfl⟩ := hcs
    exact hc a ha
  case hne2 =>
    simpa using hne
  rw [List.map_map]
  have : (fun cs => String.mk cs) ∘ String.data = id := by
    funext a
    rfl
  rw [this, List.map_id]

/-- The comma join of a list that is neither empty nor the singleton empty
string is a non-empty string. -/
theorem joinComma_ne_empty (l : List String) (hne : l ≠ []) (hne2 : l ≠ [""]) :
    joinComma l ≠ "" := by
  intro hempty
  have hdata : List.intercalate [','] (l.map String.data) = [] := by
    have := congrArg String.data hempty
    exact this
  match l, hne with
  | [x], _ =>
    apply hne2
    have hx : x.data = [] := by
      simpa [List.intercalate] using hdata
    have : x = "" := congrArg String.mk hx
    rw [this]
  | x :: y :: ys, _ =>
    rw [show (x :: y :: ys).map String.data = x.data :: y.data :: ys.map String.data
      from rfl] at hdata
    rw [List.intercalate] at hdata
    rw [List.intersperse_cons_cons] at hdata
    simp at hdata

/-- C2 counterexample: the state sitting on page 0 with no filters set (its
search term, category and brand all null) does not survive the URL
round-trip: the writing effect only records the page beyond page 1, and the
reading effect then restores page 1, not page 0. -/
theorem C2_roundtrip_page_counterexample :
    applyReadEffect parseIntJS (writeParams (fun n : Int => toString n) srStatePageZero)
      srStatePageZero ≠ srStatePageZero := by decide

/-- C2 (amended): the URL round-trip restores the state exactly, provided
additionally that the page number is at least 1, the sort field is null or
non-empty, the attribute ids are comma-free and not the single empty
string, and the JavaScript number/string round-trip holds at the score and
page values held in the state (which it does for every JavaScript number). -/
theorem C2_url_state_roundtrip {Num : Type} [DecidableEq Num]
    (numToString : Num → String) (parseNum : String → Option Num)
    (s : SRState Num)
    (hq : s.searchTerm ≠ some "")
    (hcat : s.selectedCategory ≠ some "")
    (hbrand : s.selectedBrand ≠ some "")
    (hsus : ∀ x, s.selectedSustainabilityScore = some x →
      parseNum (numToString x) = some x ∧ numToString x ≠ "")
    (heth : ∀ x, s.selectedEthicalScore = some x →
      parseNum (numToString x) = some x ∧ numToString x ≠ "")
    (hdur : ∀ x, s.selectedDurabilityScore = some x →
      parseNum (numToString x) = some x ∧ numToString x ≠ "")
    (hattrc : ∀ a ∈ s.selectedAttributes, (',' : Char) ∉ a.data)
    (hattre : s.selectedAttributes ≠ [""])
    (hsort : s.sortBy ≠ some "")
    (hpage : 1 ≤ s.currentPage)
    (hpageParse : parseIntJS (toString s.currentPage) = some s.currentPage) :
    applyReadEffect parseNum (writeParams numToString s) s = s := by
  have gq := getParam_writeParams_q numToString s
  have gcat := getParam_writeParams_category numToString s
  have gbrand := getParam_writeParams_brand numToString s
  have gsus := getParam_writeParams_sus numToString s
  have geth := getParam_writeParams_eth numToString s
  have gdur := getParam_writeParams_dur numToString s
  have gattrs := getParam_writeParams_attrs numToString s
  have gsb := getParam_writeParams_sortBy numToString s
  have gso := getParam_writeParams_sortOrder numToString s
  have gpage := getParam_writeParams_page numToString s
  unfold applyReadEffect
  apply SRState.ext
  case searchTerm =>
    dsimp only
    rw [gq]
    exact readBack_optVal s.searchTerm hq
  case selectedCategory =>
    dsimp only
    rw [gcat]
    exact readBack_optVal s.selectedCategory hcat
  case selectedBrand =>
    dsimp only
    rw [gbrand]
    exact readBack_optVal s.selectedBrand hbrand
  case selectedSustainabilityScore =>
    dsimp only
    exact readScore_writeBack parseNum _ _ _ numToString gsus hsus
  case selectedEthicalScore =>
    dsimp only
    exact readScore_writeBack parseNum _ _ _ numToString geth heth
  case selectedDurabilityScore =>
    dsimp only
    exact readScore_writeBack parseNum _ _ _ numToString gdur hdur
  case selectedAttributes =>
    dsimp only
    rw [gattrs]
    rcases hA : s.selectedAttributes with _ | ⟨a, as⟩
    · simp [optVal]
    · rw [hA] at hattrc hattre
      have hjoin : joinComma (a :: as) ≠ "" :=
        joinComma_ne_empty (a :: as) (by simp) hattre
      have hsplit : splitComma (joinComma (a :: as)) = a :: as :=
        splitComma_joinComma (a :: as) hattrc (by simp)
      have hlen : (a :: as).length > 0 := by simp
      simp only [hlen, if_true, optVal, if_neg hjoin, hsplit]
      simp
  case sortBy =>
    dsimp only
    rw [gsb]
    exact readBack_optVal s.sortBy hsort
  case sortOrder =>
    dsimp only
    rw [gso]
    rcases s.sortOrder with _ | ⟨_ | _⟩
    · simp [optVal]
    · simp [optVal, SortOrder.toParam]
    · simp [optVal, SortOrder.toParam]
  case currentPage =>
    dsimp only
    rw [gpage]
    by_cases hp1 : s.currentPage > 1
    · have hts : toString s.currentPage ≠ "" := by
        intro h
        rw [h] at hpageParse
        have hnone : parseIntJS "" = (none : Option Int) := rfl
        rw [hnone] at hpageParse
        exact Option.noConfusion hpageParse
      simp only [hp1, if_true, optVal, if_neg hts, hpageParse]
      simp
    · have hp0 : s.currentPage = 1 := by omega
      rw [hp0]
      decide

/-- Closed instance of C2 (amended): a concrete state exercising every URL
parameter round-trips, with the number type instantiated at Int. -/
theorem C2_url_state_roundtrip_witness :
    applyReadEffect parseIntJS (writeParams (fun n : Int => toString n) srStateFull)
      srStateFull = srStateFull :=
  C2_url_state_roundtrip (fun n : Int => toString n) parseIntJS srStateFull
    (by decide) (by decide) (by decide)
    (fun x hx => by
      have h4 : (4 : Int) = x := Option.some.inj hx
      subst h4
      exact ⟨by decide, by decide⟩)
    (fun x hx => Option.noConfusion hx)
    (fun x hx => by
      have h2 : (2 : Int) = x := Option.some.inj hx
      subst h2
      exact ⟨by decide, by decide⟩)
    (by decide) (by decide) (by decide) (by decide) (by decide)

end SR
